import Mathlib

/-!
Verification of the input-validation and unit-normalization pipeline of the
diabetes cluster prediction frontend (src/cluster-prediction-frontend/src/App.js).

The React component's relevant state and handlers are shallowly embedded:
strings stay strings, JS numbers become `Option ℚ` (with `Option.none`
standing for NaN), the checkbox maps become a fixed-key structure, and the
two submit handlers become pure functions from a form state to the updated
form state paired with the (optional) request payload they would send over
the network.
-/

set_option maxRecDepth 4000

/-- The fixed medication checkbox map of the component
(`currentMedications` / `futureMedications` initial state, lines 75-82 and
115-122 of App.js): keys insulin, glp1rAgonist, sglt2Inhibitor, metformin,
other, none, each a boolean. -/
structure Medications where
  insulin : Bool
  glp1rAgonist : Bool
  sglt2Inhibitor : Bool
  metformin : Bool
  other : Bool
  none : Bool
deriving DecidableEq, Repr

/-- Whether some medication checkbox is checked:
`Object.values(currentMedications).some((checked) => checked)`
(App.js line 178). -/
def someChecked (m : Medications) : Bool :=
  m.insulin || m.glp1rAgonist || m.sglt2Inhibitor || m.metformin || m.other || m.none

/-- Whether the `none` key conflicts with another checked key:
`currentMedications.none && Object.entries(currentMedications).some(([key, checked]) => key !== 'none' && checked)`
(App.js lines 185-186). -/
def noneConflict (m : Medications) : Bool :=
  m.none && (m.insulin || m.glp1rAgonist || m.sglt2Inhibitor || m.metformin || m.other)

/-- The `inputs` state object (App.js lines 64-71): six clinical fields,
each a raw string as typed by the user. -/
structure Inputs where
  gad : String
  hba1c : String
  bmi : String
  age : String
  cpeptide : String
  glucose : String
deriving DecidableEq, Repr

/-- The stored prediction result, of which the follow-up handler only
reads `predictionId` (App.js lines 268, 277). `Option.none` for the id
models a missing/undefined `predictionId` property. -/
structure PredResult where
  predictionId : Option String
deriving DecidableEq, Repr

/-- The component state used by the handlers (App.js lines 64-124). -/
structure FormState where
  inputs : Inputs
  glucoseUnit : String
  cpeptideUnit : String
  isVerified : Bool
  currentMedications : Medications
  result : Option PredResult
  errorMessage : String
  isManagementChanged : String
  futureMedications : Medications
  submissionStatus : String
  medicationError : String
deriving DecidableEq, Repr

/-- Error message of the consent check (App.js line 174). -/
def consentMsg : String := "Please verify that you are entering real patient information."

/-- Error message of the medication-selection check (App.js line 179). -/
def medsRequiredMsg : String := "Please select the patient\x27s current medication(s)."

/-- Error message of the none-conflict check (App.js line 188). -/
def noneConflictMsg : String := "You cannot select \"None\" along with other medications."

/-- Error message of the all-fields check (App.js line 193). -/
def allFieldsMsg : String := "All fields must be filled with valid values."

/-- Error message of the units check (App.js line 198). -/
def unitsMsg : String := "Please select units for glucose and C-peptide."

/-- Error message of the future-medication check (App.js line 251). -/
def futureMedsRequiredMsg : String := "Please select at least one medication going forward."

/-- Status message when the prediction id is missing (App.js line 269). -/
def predictionIdMissingMsg : String := "Failed to submit. Prediction ID is missing."

/-- Status message on successful follow-up submission (App.js line 282). -/
def savedMsg : String := "Saved successfully."

/-- Value of a list of decimal digit characters (most significant first). -/
def digitsToNat (l : List Char) : ℕ :=
  l.foldl (fun acc c => 10 * acc + (c.toNat - 48)) 0

/-- JavaScript `parseFloat`, modelled on the fragment the form can produce:
an optional sign, then the longest prefix of digits, then optionally a dot
followed by the longest prefix of digits; the result is NaN (here
`Option.none`) precisely when no digit was consumed. Exponents, `Infinity`
and leading whitespace are outside the modelled fragment. -/
def parseFloat (s : String) : Option ℚ :=
  let p : ℚ × List Char :=
    match s.data with
    | '-' :: rest => (-1, rest)
    | '+' :: rest => (1, rest)
    | l => (1, l)
  let ip : List Char := p.2.takeWhile Char.isDigit
  let rest : List Char := p.2.drop ip.length
  let fp : List Char :=
    match rest with
    | '.' :: r => r.takeWhile Char.isDigit
    | _ => []
  if ip = [] ∧ fp = [] then Option.none
  else some (p.1 * ((digitsToNat ip : ℚ) + (digitsToNat fp : ℚ) / (10 : ℚ) ^ fp.length))

/-- The glucose conversion constant 18.0182 (App.js line 207). -/
def glucoseConst : ℚ := 180182 / 10000

/-- The C-peptide conversion constant 0.3311 (App.js line 211). -/
def cpeptideConst : ℚ := 3311 / 10000

/-- Glucose unit normalization (App.js lines 206-208): divide by
`glucoseConst` when the selected unit is mg/dL, otherwise keep the value. -/
def convertGlucose (unit : String) (v : ℚ) : ℚ :=
  if unit = "mg/dL" then v / glucoseConst else v

/-- C-peptide unit normalization (App.js lines 210-212): multiply by
`cpeptideConst` when the selected unit is ng/mL, otherwise keep the value. -/
def convertCpeptide (unit : String) (v : ℚ) : ℚ :=
  if unit = "ng/mL" then v * cpeptideConst else v

/-- The request payload object `someInputs` (App.js lines 214-223),
field for field. NaN-valued numbers are `Option.none`. -/
structure SomeInputs where
  gad : ℚ
  hba1c : Option ℚ
  bmi : Option ℚ
  age : Option ℚ
  cpeptide : Option ℚ
  glucose : Option ℚ
  medications : Medications
  isVerified : Bool
deriving DecidableEq, Repr

/-- The keys of the `someInputs` object literal (App.js lines 214-223),
in source order. -/
def someInputsKeys : List String :=
  ["gad", "hba1c", "bmi", "age", "cpeptide", "glucose", "medications", "isVerified"]

/-- Construction of the payload from the form state (App.js lines 203-223):
parse each numeric string, convert glucose and C-peptide to canonical
units, map gad "Positive" to 1 and anything else to 0, and attach the
medication map and the verification flag. -/
def someInputs (s : FormState) : SomeInputs :=
  { gad := if s.inputs.gad = "Positive" then 1 else 0
    hba1c := parseFloat s.inputs.hba1c
    bmi := parseFloat s.inputs.bmi
    age := parseFloat s.inputs.age
    cpeptide := (parseFloat s.inputs.cpeptide).map (convertCpeptide s.cpeptideUnit)
    glucose := (parseFloat s.inputs.glucose).map (convertGlucose s.glucoseUnit)
    medications := s.currentMedications
    isVerified := s.isVerified }

/-- The clearing of `errorMessage` and `result` that the submit handler
performs first (App.js lines 169-170: `setErrorMessage('')` and
`setResult(null)`). -/
def clearedState (s : FormState) : FormState :=
  { s with errorMessage := "", result := Option.none }

/-- The submit handler (App.js lines 167-246) as a pure function: it
returns the updated component state together with the payload posted to
the prediction endpoint, or `Option.none` when validation fails and no
request is issued. The handler first clears `errorMessage` and `result`
(lines 169-170), then applies the five checks in source order. -/
def handleSubmit (s : FormState) : FormState × Option SomeInputs :=
  if s.isVerified = false then
    ({ clearedState s with errorMessage := consentMsg }, Option.none)
  else if someChecked s.currentMedications = false then
    ({ clearedState s with errorMessage := medsRequiredMsg }, Option.none)
  else if noneConflict s.currentMedications = true then
    ({ clearedState s with errorMessage := noneConflictMsg }, Option.none)
  else if s.inputs.gad = "" ∨ s.inputs.hba1c = "" ∨ s.inputs.bmi = "" ∨
      s.inputs.age = "" ∨ s.inputs.cpeptide = "" ∨ s.inputs.glucose = "" then
    ({ clearedState s with errorMessage := allFieldsMsg }, Option.none)
  else if s.glucoseUnit = "" ∨ s.cpeptideUnit = "" then
    ({ clearedState s with errorMessage := unitsMsg }, Option.none)
  else
    (clearedState s, some (someInputs s))

/-- The unsigned decimal pattern `^[0-9]*\.?[0-9]*$` of App.js line 139:
digits, optionally one dot, then digits. -/
def isDecimalPattern (s : String) : Bool :=
  match s.data.dropWhile Char.isDigit with
  | [] => true
  | '.' :: rest => rest.all Char.isDigit
  | _ => false

/-- Read the input field named `name` (the controlled `value` of the six
form inputs). -/
def getInput (i : Inputs) (name : String) : String :=
  if name = "gad" then i.gad
  else if name = "hba1c" then i.hba1c
  else if name = "bmi" then i.bmi
  else if name = "age" then i.age
  else if name = "cpeptide" then i.cpeptide
  else if name = "glucose" then i.glucose
  else ""

/-- Store `value` into the input field named `name`
(`setInputs({ ...inputs, [name]: value })`, restricted to the six known
field names). -/
def setInput (i : Inputs) (name value : String) : Inputs :=
  if name = "gad" then { i with gad := value }
  else if name = "hba1c" then { i with hba1c := value }
  else if name = "bmi" then { i with bmi := value }
  else if name = "age" then { i with age := value }
  else if name = "cpeptide" then { i with cpeptide := value }
  else if name = "glucose" then { i with glucose := value }
  else i

/-- The change handler (App.js lines 136-145): for the glucose and
cpeptide fields the new value is stored only when it is empty or matches
the unsigned decimal pattern; other fields store any value. -/
def handleChange (s : FormState) (name value : String) : FormState :=
  if name = "glucose" ∨ name = "cpeptide" then
    if value = "" ∨ isDecimalPattern value = true then
      { s with inputs := setInput s.inputs name value }
    else s
  else { s with inputs := setInput s.inputs name value }

/-- Typing a sequence of characters into the field named `name` of a
controlled input: each keystroke appends one character to the currently
stored value and fires the change handler with the would-be new value. -/
def typeInto (s : FormState) (name : String) (cs : List Char) : FormState :=
  cs.foldl (fun st c => handleChange st name ((getInput st.inputs name).push c)) s

/-- The follow-up request body posted to submit_medications
(App.js lines 276-280). -/
structure MedicationRequest where
  predictionId : Option String
  isManagementChanged : String
  medications : Option Medications
deriving DecidableEq, Repr

/-- JS truthiness of `result.predictionId` (App.js line 268): false for a
missing id and for the empty string. -/
def truthyId : Option String → Bool
  | Option.none => false
  | some s => s != ""

/-- The follow-up medication handler (App.js lines 248-287) as a pure
function: updated state plus the request it posts, or `Option.none` when
no request is issued. -/
def handleMedicationSubmit (s : FormState) : FormState × Option MedicationRequest :=
  if s.isManagementChanged = "yes" && !(someChecked s.futureMedications) then
    ({ s with medicationError := futureMedsRequiredMsg }, Option.none)
  else if noneConflict s.futureMedications = true then
    ({ s with medicationError := noneConflictMsg }, Option.none)
  else
    match s.result with
    | Option.none =>
      ({ s with medicationError := "", submissionStatus := predictionIdMissingMsg },
       Option.none)
    | some r =>
      if truthyId r.predictionId = false then
        ({ s with medicationError := "", submissionStatus := predictionIdMissingMsg },
         Option.none)
      else
        ({ s with medicationError := "", submissionStatus := savedMsg },
         some { predictionId := r.predictionId
                isManagementChanged := s.isManagementChanged
                medications :=
                  if s.isManagementChanged = "yes" then some s.futureMedications
                  else Option.none })

/-- Medication map with only insulin checked. -/
def medsInsulinOnly : Medications := ⟨true, false, false, false, false, false⟩

/-- Medication map with nothing checked. -/
def medsAllFalse : Medications := ⟨false, false, false, false, false, false⟩

/-- Medication map with insulin and the `none` key both checked. -/
def medsNoneAndInsulin : Medications := ⟨true, false, false, false, false, true⟩

/-- A fully and correctly filled set of clinical inputs. -/
def okInputs : Inputs := ⟨"Positive", "5.5", "30", "50", "2", "90"⟩

/-- A form state on which every validation check passes. -/
def baseState : FormState :=
  ⟨okInputs, "mg/dL", "ng/mL", true, medsInsulinOnly, Option.none, "", "",
   medsAllFalse, "", ""⟩

/-- A form state that passes every validation check but whose glucose
field holds the string ".", which matches the keystroke pattern, is
non-empty, and parses to NaN. -/
def dotGlucoseState : FormState :=
  { baseState with inputs := { okInputs with glucose := "." } }

/-- A form state holding a previously displayed prediction result, about
to fail the consent check. -/
def staleResultState : FormState :=
  { baseState with isVerified := false, result := some ⟨some "abc123"⟩ }

/-- Evaluation of `parseFloat` on the concrete string "90": the rational
90. -/
theorem parseFloat_ninety : parseFloat "90" = some 90 := by
  rw [show parseFloat "90"
      = some ((1 : ℚ) * (((90 : ℕ) : ℚ) + ((0 : ℕ) : ℚ) / (10 : ℚ) ^ (0 : ℕ))) from rfl]
  norm_num

/-- Evaluation of `parseFloat` on the concrete string "2": the rational
2. -/
theorem parseFloat_two : parseFloat "2" = some 2 := by
  rw [show parseFloat "2"
      = some ((1 : ℚ) * (((2 : ℕ) : ℚ) + ((0 : ℕ) : ℚ) / (10 : ℚ) ^ (0 : ℕ))) from rfl]
  norm_num

/-- Claim C1: for every submission the validator applies its checks in
the fixed order consent flag, at-least-one-medication-selected,
none-conflicts-with-others, all six clinical fields non-empty, both unit
selectors chosen, and the reported reason is that of the first check that
fails; in particular a false consent flag reports the consent reason
regardless of every other input. -/
theorem handleSubmit_check_order (s : FormState) :
    (s.isVerified = false →
      (handleSubmit s).1.errorMessage = consentMsg ∧ (handleSubmit s).2 = Option.none) ∧
    (s.isVerified = true → someChecked s.currentMedications = false →
      (handleSubmit s).1.errorMessage = medsRequiredMsg ∧ (handleSubmit s).2 = Option.none) ∧
    (s.isVerified = true → someChecked s.currentMedications = true →
      noneConflict s.currentMedications = true →
      (handleSubmit s).1.errorMessage = noneConflictMsg ∧ (handleSubmit s).2 = Option.none) ∧
    (s.isVerified = true → someChecked s.currentMedications = true →
      noneConflict s.currentMedications = false →
      (s.inputs.gad = "" ∨ s.inputs.hba1c = "" ∨ s.inputs.bmi = "" ∨
        s.inputs.age = "" ∨ s.inputs.cpeptide = "" ∨ s.inputs.glucose = "") →
      (handleSubmit s).1.errorMessage = allFieldsMsg ∧ (handleSubmit s).2 = Option.none) ∧
    (s.isVerified = true → someChecked s.currentMedications = true →
      noneConflict s.currentMedications = false →
      s.inputs.gad ≠ "" → s.inputs.hba1c ≠ "" → s.inputs.bmi ≠ "" →
      s.inputs.age ≠ "" → s.inputs.cpeptide ≠ "" → s.inputs.glucose ≠ "" →
      (s.glucoseUnit = "" ∨ s.cpeptideUnit = "") →
      (handleSubmit s).1.errorMessage = unitsMsg ∧ (handleSubmit s).2 = Option.none) := by
  refine ⟨?_, ?_, ?_, ?_, ?_⟩
  · intro hv; simp [handleSubmit, clearedState, hv]
  · intro hv hm; simp [handleSubmit, clearedState, hv, hm]
  · intro hv hm hc; simp [handleSubmit, clearedState, hv, hm, hc]
  · intro hv hm hc hf
    rcases hf with h | h | h | h | h | h <;>
      simp [handleSubmit, clearedState, hv, hm, hc, h]
  · intro hv hm hc h1 h2 h3 h4 h5 h6 hu
    rcases hu with h | h <;>
      simp [handleSubmit, clearedState, hv, hm, hc, h1, h2, h3, h4, h5, h6, h]

/-- Witness for C1: on a concrete state with the consent flag false and
every other input valid, the consent reason is reported and no payload is
emitted. -/
theorem handleSubmit_check_order_witness :
    (handleSubmit { baseState with isVerified := false }).1.errorMessage = consentMsg ∧
    (handleSubmit { baseState with isVerified := false }).2 = Option.none :=
  (handleSubmit_check_order { baseState with isVerified := false }).1 rfl

/-- Claim C5: whenever at least one of the six clinical fields is the
empty string (and the checks that the validator runs earlier - consent
and the two medication checks - pass), validation fails with the
all-fields-required reason, regardless of the values of all other raw
fields including the unit selectors. -/
theorem handleSubmit_required_fields (s : FormState)
    (hv : s.isVerified = true)
    (hm : someChecked s.currentMedications = true)
    (hc : noneConflict s.currentMedications = false)
    (hf : s.inputs.gad = "" ∨ s.inputs.hba1c = "" ∨ s.inputs.bmi = "" ∨
      s.inputs.age = "" ∨ s.inputs.cpeptide = "" ∨ s.inputs.glucose = "") :
    (handleSubmit s).1.errorMessage = allFieldsMsg ∧ (handleSubmit s).2 = Option.none := by
  rcases hf with h | h | h | h | h | h <;>
    simp [handleSubmit, clearedState, hv, hm, hc, h]

/-- Witness for C5: a concrete state with an empty hba1c field (and unit
selectors still unset, showing the fields reason wins over the units
reason) fails with the all-fields reason. -/
theorem handleSubmit_required_fields_witness :
    (handleSubmit { baseState with inputs := { okInputs with hba1c := "" }, glucoseUnit := "" }).1.errorMessage = allFieldsMsg ∧
    (handleSubmit { baseState with inputs := { okInputs with hba1c := "" }, glucoseUnit := "" }).2 = Option.none :=
  handleSubmit_required_fields
    { baseState with inputs := { okInputs with hba1c := "" }, glucoseUnit := "" }
    rfl rfl rfl (Or.inr (Or.inl rfl))

/-- Claim C6: whenever the medication selection is all-false (and the
consent check that runs before it passes), validation fails with the
medication-selection-required reason. -/
theorem handleSubmit_medication_required (s : FormState)
    (hv : s.isVerified = true)
    (hm : s.currentMedications = medsAllFalse) :
    (handleSubmit s).1.errorMessage = medsRequiredMsg ∧ (handleSubmit s).2 = Option.none := by
  simp [handleSubmit, clearedState, someChecked, hv, hm, medsAllFalse]

/-- Witness for C6: a concrete state with no medication checked fails
with the medication-selection reason. -/
theorem handleSubmit_medication_required_witness :
    (handleSubmit { baseState with currentMedications := medsAllFalse }).1.errorMessage = medsRequiredMsg ∧
    (handleSubmit { baseState with currentMedications := medsAllFalse }).2 = Option.none :=
  handleSubmit_medication_required { baseState with currentMedications := medsAllFalse } rfl rfl

/-- Claim C7: whenever the `none` medication key is checked together with
at least one other medication key (and the consent check that runs before
it passes), validation fails with the none-conflict reason. -/
theorem handleSubmit_medication_conflict (s : FormState)
    (hv : s.isVerified = true)
    (hn : s.currentMedications.none = true)
    (ho : s.currentMedications.insulin = true ∨ s.currentMedications.glp1rAgonist = true ∨
      s.currentMedications.sglt2Inhibitor = true ∨ s.currentMedications.metformin = true ∨
      s.currentMedications.other = true) :
    (handleSubmit s).1.errorMessage = noneConflictMsg ∧ (handleSubmit s).2 = Option.none := by
  rcases ho with h | h | h | h | h <;>
    simp [handleSubmit, clearedState, someChecked, noneConflict, hv, hn, h]

/-- Witness for C7: a concrete state with insulin and `none` both checked
fails with the none-conflict reason. -/
theorem handleSubmit_medication_conflict_witness :
    (handleSubmit { baseState with currentMedications := medsNoneAndInsulin }).1.errorMessage = noneConflictMsg ∧
    (handleSubmit { baseState with currentMedications := medsNoneAndInsulin }).2 = Option.none :=
  handleSubmit_medication_conflict { baseState with currentMedications := medsNoneAndInsulin }
    rfl rfl (Or.inl rfl)

/-- Counterexample to C2 as stated: on a successful validation the
emitted payload's key set is not the claimed seven-element set (it also
carries `isVerified`), and with the accepted glucose entry "." the
payload's glucose is NaN rather than finite. -/
theorem handleSubmit_payload_cex :
    (handleSubmit dotGlucoseState).2 = some (someInputs dotGlucoseState) ∧
    someInputsKeys ≠ ["gad", "hba1c", "bmi", "age", "cpeptide", "glucose", "medications"] ∧
    (someInputs dotGlucoseState).glucose = Option.none :=
  ⟨rfl, by decide, rfl⟩

/-- Claim C2 (amended): on every successful validation the emitted
payload consists exactly of the fields gad, hba1c, bmi, age, cpeptide,
glucose, medications, and additionally isVerified; gad is 1 when the raw
gad status is Positive and 0 when it is Negative; no unit tags are
present in the payload; and the numeric fields are finite provided each
raw numeric string parses to a number (the accepted entry "." parses to
NaN and is not rejected). -/
theorem handleSubmit_payload_shape (s : FormState) (p : SomeInputs)
    (hp : (handleSubmit s).2 = some p) :
    someInputsKeys = ["gad", "hba1c", "bmi", "age", "cpeptide", "glucose", "medications",
      "isVerified"] ∧
    (s.inputs.gad = "Positive" → p.gad = 1) ∧
    (s.inputs.gad = "Negative" → p.gad = 0) ∧
    ("glucoseUnit" ∉ someInputsKeys ∧ "cpeptideUnit" ∉ someInputsKeys) ∧
    ((parseFloat s.inputs.hba1c).isSome = true →
      (parseFloat s.inputs.bmi).isSome = true →
      (parseFloat s.inputs.age).isSome = true →
      (parseFloat s.inputs.cpeptide).isSome = true →
      (parseFloat s.inputs.glucose).isSome = true →
      p.hba1c.isSome = true ∧ p.bmi.isSome = true ∧ p.age.isSome = true ∧
        p.cpeptide.isSome = true ∧ p.glucose.isSome = true) := by
  have hps : p = someInputs s := by
    unfold handleSubmit at hp
    repeat' split at hp
    all_goals simp_all
  subst hps
  refine ⟨rfl, ?_, ?_, by decide, ?_⟩
  · intro h; simp [someInputs, h]
  · intro h; simp [someInputs, h]
  · intro h1 h2 h3 h4 h5
    simp [someInputs, Option.isSome_map, h1, h2, h3, h4, h5]

/-- Witness for C2 (amended): the fully valid base state emits a payload
whose numeric fields are all finite. -/
theorem handleSubmit_payload_shape_witness :
    (someInputs baseState).hba1c.isSome = true ∧
    (someInputs baseState).bmi.isSome = true ∧
    (someInputs baseState).age.isSome = true ∧
    (someInputs baseState).cpeptide.isSome = true ∧
    (someInputs baseState).glucose.isSome = true :=
  (handleSubmit_payload_shape baseState (someInputs baseState) rfl).2.2.2.2
    rfl rfl rfl rfl rfl

/-- Counterexample to C3 as stated: on a failing submission no request is
issued, but besides setting the failure reason the handler also clears
the previously stored prediction result, a further state change. -/
theorem handleSubmit_failure_cex :
    (handleSubmit staleResultState).2 = Option.none ∧
    (handleSubmit staleResultState).1.errorMessage = consentMsg ∧
    staleResultState.result = some ⟨some "abc123"⟩ ∧
    (handleSubmit staleResultState).1.result = Option.none := by
  decide

/-- Claim C3 (amended): for every input on which validation fails, no
network request is issued and no payload, even partial, is produced; the
only state changes are setting `errorMessage` to the single failure
reason and resetting the stored prediction result to null; every other
state field is unchanged. -/
theorem handleSubmit_failure_effects (s : FormState)
    (hfail : (handleSubmit s).2 = Option.none) :
    (handleSubmit s).1.inputs = s.inputs ∧
    (handleSubmit s).1.glucoseUnit = s.glucoseUnit ∧
    (handleSubmit s).1.cpeptideUnit = s.cpeptideUnit ∧
    (handleSubmit s).1.isVerified = s.isVerified ∧
    (handleSubmit s).1.currentMedications = s.currentMedications ∧
    (handleSubmit s).1.isManagementChanged = s.isManagementChanged ∧
    (handleSubmit s).1.futureMedications = s.futureMedications ∧
    (handleSubmit s).1.submissionStatus = s.submissionStatus ∧
    (handleSubmit s).1.medicationError = s.medicationError ∧
    (handleSubmit s).1.result = Option.none ∧
    ((handleSubmit s).1.errorMessage = consentMsg ∨
      (handleSubmit s).1.errorMessage = medsRequiredMsg ∨
      (handleSubmit s).1.errorMessage = noneConflictMsg ∨
      (handleSubmit s).1.errorMessage = allFieldsMsg ∨
      (handleSubmit s).1.errorMessage = unitsMsg) := by
  unfold handleSubmit at hfail ⊢
  repeat' split at hfail
  all_goals simp_all [clearedState]

/-- Witness for C3 (amended): on the concrete state failing the consent
check, the stored result is reset and the message is one of the five
validation reasons. -/
theorem handleSubmit_failure_effects_witness :
    (handleSubmit staleResultState).1.result = Option.none ∧
    ((handleSubmit staleResultState).1.errorMessage = consentMsg ∨
      (handleSubmit staleResultState).1.errorMessage = medsRequiredMsg ∨
      (handleSubmit staleResultState).1.errorMessage = noneConflictMsg ∨
      (handleSubmit staleResultState).1.errorMessage = allFieldsMsg ∨
      (handleSubmit staleResultState).1.errorMessage = unitsMsg) :=
  ⟨(handleSubmit_failure_effects staleResultState rfl).2.2.2.2.2.2.2.2.2.1,
   (handleSubmit_failure_effects staleResultState rfl).2.2.2.2.2.2.2.2.2.2⟩

/-- Claim C4: after all checks pass, unit normalization converts a
glucose value entered in mg/dL to mmol/L by dividing by 18.0182 and
leaves a mmol/L value unchanged, and converts a C-peptide value entered
in ng/mL to nmol/L by multiplying by 0.3311 and leaves a nmol/L value
unchanged; glucose 90 in mg/dL normalizes to 90/18.0182, which lies
within 0.0001 of 4.9949. -/
theorem handleSubmit_unit_normalization (s : FormState) (q : ℚ) :
    (parseFloat s.inputs.glucose = some q →
      (s.glucoseUnit = "mg/dL" → (someInputs s).glucose = some (q / glucoseConst)) ∧
      (s.glucoseUnit = "mmol/L" → (someInputs s).glucose = some q)) ∧
    (parseFloat s.inputs.cpeptide = some q →
      (s.cpeptideUnit = "ng/mL" → (someInputs s).cpeptide = some (q * cpeptideConst)) ∧
      (s.cpeptideUnit = "nmol/L" → (someInputs s).cpeptide = some q)) ∧
    ((49949 : ℚ) / 10000 < convertGlucose "mg/dL" 90 ∧
      convertGlucose "mg/dL" 90 < (4995 : ℚ) / 1000) := by
  refine ⟨?_, ?_, ?_⟩
  · intro h
    constructor <;> intro hu <;> simp [someInputs, convertGlucose, h, hu]
  · intro h
    constructor <;> intro hu <;> simp [someInputs, convertCpeptide, h, hu]
  · constructor <;> · simp only [convertGlucose, if_pos rfl, glucoseConst]; norm_num

/-- Witness for C4: the base state enters glucose 90 in mg/dL and
C-peptide 2 in ng/mL; the payload carries 90 divided by the glucose
constant and 2 times the C-peptide constant. -/
theorem handleSubmit_unit_normalization_witness :
    (someInputs baseState).glucose = some (90 / glucoseConst) ∧
    (someInputs baseState).cpeptide = some (2 * cpeptideConst) :=
  ⟨((handleSubmit_unit_normalization baseState 90).1 parseFloat_ninety).1 rfl,
   ((handleSubmit_unit_normalization baseState 2).2.1 parseFloat_two).1 rfl⟩

/-- Claim C9: converting a glucose value from mg/dL to mmol/L (dividing
by the conversion constant) and then back (multiplying by the same
constant) reproduces the original value exactly over exact arithmetic. -/
theorem convertGlucose_round_trip (v : ℚ) :
    convertGlucose "mg/dL" v * glucoseConst = v := by
  simp only [convertGlucose, if_pos rfl]
  exact div_mul_cancel₀ v (by norm_num [glucoseConst])

/-- Witness for C9: the round trip at the concrete value 90. -/
theorem convertGlucose_round_trip_witness :
    convertGlucose "mg/dL" 90 * glucoseConst = 90 :=
  convertGlucose_round_trip 90

/-- The change handler stores into the glucose field exactly the accepted
values: the new value when it is empty or matches the pattern, the old
value otherwise. -/
theorem handleChange_glucose_eq (s : FormState) (v : String) :
    (handleChange s "glucose" v).inputs.glucose
      = if v = "" ∨ isDecimalPattern v = true then v else s.inputs.glucose := by
  unfold handleChange setInput
  split
  · split <;> simp_all
  · simp_all

/-- The change handler stores into the cpeptide field exactly the
accepted values. -/
theorem handleChange_cpeptide_eq (s : FormState) (v : String) :
    (handleChange s "cpeptide" v).inputs.cpeptide
      = if v = "" ∨ isDecimalPattern v = true then v else s.inputs.cpeptide := by
  unfold handleChange setInput
  split
  · split <;> simp_all
  · simp_all

/-- One keystroke into the glucose field preserves the decimal pattern of
the stored value. -/
theorem handleChange_glucose_pattern (s : FormState) (v : String)
    (h : isDecimalPattern s.inputs.glucose = true) :
    isDecimalPattern (handleChange s "glucose" v).inputs.glucose = true := by
  rw [handleChange_glucose_eq]
  split
  · rename_i hv
    rcases hv with rfl | hv
    · decide
    · exact hv
  · exact h

/-- One keystroke into the cpeptide field preserves the decimal pattern
of the stored value. -/
theorem handleChange_cpeptide_pattern (s : FormState) (v : String)
    (h : isDecimalPattern s.inputs.cpeptide = true) :
    isDecimalPattern (handleChange s "cpeptide" v).inputs.cpeptide = true := by
  rw [handleChange_cpeptide_eq]
  split
  · rename_i hv
    rcases hv with rfl | hv
    · decide
    · exact hv
  · exact h

/-- Typing any character sequence into the glucose field keeps the
stored value inside the decimal pattern. -/
theorem typeInto_glucose_pattern (cs : List Char) :
    ∀ s : FormState, isDecimalPattern s.inputs.glucose = true →
      isDecimalPattern (typeInto s "glucose" cs).inputs.glucose = true := by
  induction cs with
  | nil => intro s h; exact h
  | cons c cs ih =>
    intro s h
    rw [show typeInto s "glucose" (c :: cs)
        = typeInto (handleChange s "glucose" ((getInput s.inputs "glucose").push c)) "glucose" cs
        from rfl]
    exact ih _ (handleChange_glucose_pattern s _ h)

/-- Typing any character sequence into the cpeptide field keeps the
stored value inside the decimal pattern. -/
theorem typeInto_cpeptide_pattern (cs : List Char) :
    ∀ s : FormState, isDecimalPattern s.inputs.cpeptide = true →
      isDecimalPattern (typeInto s "cpeptide" cs).inputs.cpeptide = true := by
  induction cs with
  | nil => intro s h; exact h
  | cons c cs ih =>
    intro s h
    rw [show typeInto s "cpeptide" (c :: cs)
        = typeInto (handleChange s "cpeptide" ((getInput s.inputs "cpeptide").push c)) "cpeptide" cs
        from rfl]
    exact ih _ (handleChange_cpeptide_pattern s _ h)

/-- Claim C8: the stored glucose and C-peptide values always match the
unsigned decimal pattern: a keystroke whose resulting value falls outside
the pattern leaves the stored value unchanged, typing the character
sequence "12a.3" into an empty glucose field yields the stored value
"12.3", and therefore the field never holds a malformed number when
validation runs. -/
theorem handleChange_keystroke_filter (s : FormState) (cs : List Char) (v : String) :
    (isDecimalPattern s.inputs.glucose = true →
      isDecimalPattern (typeInto s "glucose" cs).inputs.glucose = true) ∧
    (isDecimalPattern s.inputs.cpeptide = true →
      isDecimalPattern (typeInto s "cpeptide" cs).inputs.cpeptide = true) ∧
    (v ≠ "" → isDecimalPattern v = false →
      handleChange s "glucose" v = s ∧ handleChange s "cpeptide" v = s) ∧
    (typeInto { baseState with inputs := { okInputs with glucose := "" } } "glucose"
        (String.toList "12a.3")).inputs.glucose = "12.3" := by
  refine ⟨typeInto_glucose_pattern cs s, typeInto_cpeptide_pattern cs s, ?_, by decide⟩
  intro h1 h2
  constructor <;> · unfold handleChange; simp [h1, h2]

/-- Witness for C8: the pattern invariant applied to the base state and
the keystrokes of "12a.3", and the rejection of the out-of-pattern value
"12a". -/
theorem handleChange_keystroke_filter_witness :
    isDecimalPattern (typeInto baseState "glucose" (String.toList "12a.3")).inputs.glucose = true ∧
    handleChange baseState "glucose" "12a" = baseState :=
  ⟨(handleChange_keystroke_filter baseState (String.toList "12a.3") "12a").1 (by decide),
   ((handleChange_keystroke_filter baseState (String.toList "12a.3") "12a").2.2.1
      (by decide) (by decide)).1⟩

/-- Claim C10: the follow-up medication submission is never sent without
a prediction identifier: whenever the stored prediction result or its
predictionId is absent, handleMedicationSubmit reports a failure (the
missing-id submission status, or a medication validation error when one
of the two medication checks fires first) and issues no network request;
and every request it does send carries the predictionId of the stored
prediction it follows, with medications null whenever management is
reported unchanged. -/
theorem handleMedicationSubmit_id_guard (s : FormState) :
    ((s.result = Option.none ∨
        (∃ r, s.result = some r ∧ truthyId r.predictionId = false)) →
      (handleMedicationSubmit s).2 = Option.none ∧
      ((handleMedicationSubmit s).1.submissionStatus = predictionIdMissingMsg ∨
        (handleMedicationSubmit s).1.medicationError ≠ "")) ∧
    (∀ req : MedicationRequest, (handleMedicationSubmit s).2 = some req →
      ∃ r, s.result = some r ∧ req.predictionId = r.predictionId ∧
        (s.isManagementChanged = "no" → req.medications = Option.none)) := by
  constructor
  · intro hmiss
    unfold handleMedicationSubmit
    split
    · simp [futureMedsRequiredMsg]
    · split
      · simp [noneConflictMsg]
      · rcases hmiss with hnone | ⟨r, hr, ht⟩
        · rw [hnone]; simp
        · rw [hr]; simp [ht]
  · intro req hreq
    unfold handleMedicationSubmit at hreq
    split at hreq
    · simp at hreq
    · split at hreq
      · simp at hreq
      · split at hreq
        · simp at hreq
        · rename_i r heq
          split at hreq
          · simp at hreq
          · simp only [Option.some.injEq] at hreq
            subst hreq
            exact ⟨r, heq, rfl, fun hno => by simp [hno]⟩

/-- Witness for C10: on the base state, which holds no prediction result,
the handler posts nothing and reports the missing-id status. -/
theorem handleMedicationSubmit_id_guard_witness :
    (handleMedicationSubmit baseState).2 = Option.none ∧
    ((handleMedicationSubmit baseState).1.submissionStatus = predictionIdMissingMsg ∨
      (handleMedicationSubmit baseState).1.medicationError ≠ "") :=
  (handleMedicationSubmit_id_guard baseState).1 (Or.inl rfl)
